import Mathlib

/-!
Verification of the prediction-serving HTTP service `protected_server.py`
(validation pipeline, predict/update handlers, and the prediction store).

JSON payloads are modelled by `JVal`; Python dicts are association lists
with unique keys (`JObj`).  Floating-point probabilities are modelled as
rationals: the handlers only copy them, never compute with them.  Fallible
Python operations (`KeyError`, attribute lookups on non-dicts, ORM integer
coercion) are modelled by `Except Fault`.
-/

set_option autoImplicit false

/-- A JSON value as produced by `request.get_json()`. -/
inductive JVal where
  | jnull
  | jbool (b : Bool)
  | jint (n : Int)
  | jrat (q : ℚ)
  | jstr (s : String)
  | jarr (xs : List JVal)
  | jobj (fs : List (String × JVal))

/-- A JSON object / Python dict: an association list with unique keys. -/
abbrev JObj := List (String × JVal)

/-- First-match key lookup in an object (keys are unique, so this is dict lookup). -/
def jlookup (o : JObj) (k : String) : Option JVal :=
  match o with
  | [] => none
  | (k2, v) :: rest => if k2 == k then some v else jlookup rest k

/-- Python `k in d` for a dict. -/
def jmem (o : JObj) (k : String) : Bool :=
  (jlookup o k).isSome

/-- Python runtime faults that escape the handlers as HTTP 500s. -/
inductive Fault where
  | typeError
  | keyError (k : String)
  | attributeError
  | valueError

mutual

/-- Python `repr` of a JSON value (used by `str.format` on dicts). -/
def jrepr : JVal → String
  | .jnull => "None"
  | .jbool true => "True"
  | .jbool false => "False"
  | .jint n => toString n
  | .jrat q => toString q
  | .jstr s => "\x27" ++ s ++ "\x27"
  | .jarr xs => "[" ++ jreprElems xs ++ "]"
  | .jobj fs => "\x7b" ++ jreprFields fs ++ "\x7d"

/-- Comma-separated reprs of list elements. -/
def jreprElems : List JVal → String
  | [] => ""
  | [v] => jrepr v
  | v :: rest => jrepr v ++ ", " ++ jreprElems rest

/-- Comma-separated reprs of dict entries. -/
def jreprFields : List (String × JVal) → String
  | [] => ""
  | [(k, v)] => "\x27" ++ k ++ "\x27: " ++ jrepr v
  | (k, v) :: rest => "\x27" ++ k ++ "\x27: " ++ jrepr v ++ ", " ++ jreprFields rest

end

/-- Python `str` / `"\x7b\x7d".format` of a JSON value (strings are rendered bare). -/
def pyFormat : JVal → String
  | .jstr s => s
  | v => jrepr v

/-- Python `str` of an `Option`al value (`None` when absent). -/
def pyStr : Option JVal → String
  | some v => pyFormat v
  | none => "None"

/-- Python truthiness of `d.get(k)`: `None`, `0`, `0.0`, `False`, `""`, `[]`, `\x7b\x7d` are falsy. -/
def pyTruthy : Option JVal → Bool
  | none => false
  | some .jnull => false
  | some (.jbool b) => b
  | some (.jint n) => n != 0
  | some (.jrat q) => q != 0
  | some (.jstr s) => s.length != 0
  | some (.jarr xs) => xs.length != 0
  | some (.jobj fs) => fs.length != 0

/-- Python `isinstance(x, int)` — `bool` is a subclass of `int`. -/
def isPyInt : Option JVal → Bool
  | some (.jint _) => true
  | some (.jbool _) => true
  | _ => false

/-- Numeric value of a Python int (with `True = 1`, `False = 0`). -/
def asPyInt : Option JVal → Int
  | some (.jint n) => n
  | some (.jbool b) => if b then 1 else 0
  | _ => 0

/-- Python `==` between a JSON value and a string literal (cross-type `==` is `False`). -/
def pyEqStr (v : JVal) (s : String) : Bool :=
  match v with
  | .jstr t => t == s
  | _ => false

/-- Python `repr` of a set of strings, in iteration order. -/
def reprStrSet (xs : List String) : String :=
  "\x7b" ++ String.intercalate ", " (xs.map (fun s => "\x27" ++ s ++ "\x27")) ++ "\x7d"

/-- `check_request`: the envelope check on the parsed request body. -/
def check_request (req : JObj) : Bool × String :=
  if !(jmem req "observation_id") then
    (false, "Field `observation_id` missing from request: " ++ jrepr (.jobj req))
  else if !(jmem req "data") then
    (false, "Field `data` missing from request: " ++ jrepr (.jobj req))
  else
    (true, "")

/-- The nine recognized feature columns (`valid_columns` in the source). -/
def valid_columns : List String :=
  ["age", "sex", "race", "workclass", "education", "marital-status",
   "capital-gain", "capital-loss", "hours-per-week"]

/-- `check_valid_column`: the key set of `observation` must equal the nine columns.
`observation.keys()` on a non-dict raises `AttributeError`. -/
def check_valid_column (observation : JVal) : Except Fault (Bool × String) :=
  match observation with
  | .jobj o =>
    let keys := o.map Prod.fst
    let missing := valid_columns.filter (fun c => !(keys.contains c))
    if missing.length > 0 then
      .ok (false, "Missing columns: " ++ reprStrSet missing)
    else
      let extra := keys.filter (fun k => !(valid_columns.contains k))
      if extra.length > 0 then
        .ok (false, "Unrecognized columns provided: " ++ reprStrSet extra)
      else
        .ok (true, "")
  | _ => .error .attributeError

/-- `valid_category_map` from the source, in dict insertion order. -/
def valid_category_map : List (String × List String) :=
  [("sex", ["Male", "Female"]),
   ("race", ["White", "Black", "Asian-Pac-Islander", "Amer-Indian-Eskimo", "Other"]),
   ("workclass", ["State-gov", "Self-emp-not-inc", "Private", "Federal-gov", "Local-gov",
                  "?", "Self-emp-inc", "Without-pay", "Never-worked"]),
   ("education", ["Bachelors", "HS-grad", "11th", "Masters", "9th", "Some-college",
                  "Assoc-acdm", "Assoc-voc", "7th-8th", "Doctorate", "Prof-school",
                  "5th-6th", "10th", "1st-4th", "Preschool", "12th"]),
   ("marital-status", ["Never-married", "Married-civ-spouse", "Divorced",
                       "Married-spouse-absent", "Separated", "Married-AF-spouse", "Widowed"])]

/-- The invalid-categorical-value error message (note: comma-joined with no space). -/
def catError (key : String) (value : JVal) (valid : List String) : String :=
  "Invalid value provided for " ++ key ++ ": " ++ pyFormat value ++
    ". Allowed values are: " ++
    String.intercalate "," (valid.map (fun v => "\x27" ++ v ++ "\x27"))

/-- The loop body of `check_categorical_values` over the category map. -/
def checkCatLoop (observation : JObj) : List (String × List String) → Bool × String
  | [] => (true, "")
  | (key, valid) :: rest =>
    match jlookup observation key with
    | some value =>
      if !(valid.any (fun v => pyEqStr value v)) then
        (false, catError key value valid)
      else
        checkCatLoop observation rest
    | none => (false, "Categorical field \x7b\x7d missing")

/-- `check_categorical_values`: each of the five categorical fields, in map order,
must be present and hold an allowed value.  The missing-field error string is the
unformatted template literal from the source. -/
def check_categorical_values (observation : JObj) : Bool × String :=
  checkCatLoop observation valid_category_map

/-- `check_hour`: falsy (`None` or `0`) is reported missing, then type, then range. -/
def check_hour (observation : JObj) : Bool × String :=
  let hours_per_week := jlookup observation "hours-per-week"
  if !(pyTruthy hours_per_week) then
    (false, "Field `hour` missing")
  else if !(isPyInt hours_per_week) then
    (false, "Field `hour` is not an integer")
  else
    let v := asPyInt hours_per_week
    if v < 0 || v > 168 then
      (false, "Field `hours-per-week` " ++ pyStr hours_per_week ++ " is not between 0 and 168")
    else
      (true, "")

/-- `check_age`: same falsy-first pattern, bounds 10..100. -/
def check_age (observation : JObj) : Bool × String :=
  let age := jlookup observation "age"
  if !(pyTruthy age) then
    (false, "Field `age` missing")
  else if !(isPyInt age) then
    (false, "Field `age` is not an integer")
  else
    let v := asPyInt age
    if v < 10 || v > 100 then
      (false, "Field `age` " ++ pyStr age ++ " is not between 10 and 100")
    else
      (true, "")

/-- Modelled from the spec: the external fitted-pipeline collaborator (loaded from
`data/pipeline.pickle`, not part of the source).  `probs row` is the single row of
`predict_proba` — the per-class probabilities for classes `0` and `1` in class
order, so `predict_proba(obs)[0, 0]` is `(probs row).1` and `[0, 1]` is
`(probs row).2`.  `predictLabel row` is `predict(obs)[0]`, a label in `{0, 1}`.
The DataFrame shaping/`astype` step is plumbing folded into the collaborator. -/
structure Pipeline where
  probs : JObj → ℚ × ℚ
  predictLabel : JObj → Nat

/-- Modelled from the spec: `predict_probability(row) -> probability-of-positive-class`.
The positive class is the label reported as prediction `true`, i.e. class `1`,
whose `predict_proba` column is index 1. -/
def spec_predict_probability (pl : Pipeline) (row : JObj) : ℚ :=
  (pl.probs row).2

/-- A binary classifier's `predict_proba` row is a distribution over the two
classes and `predict` is its argmax (class 0 on ties), per the scikit-learn
contract assumed by the spec. -/
def Pipeline.wellFormed (pl : Pipeline) : Prop :=
  ∀ row : JObj,
    0 ≤ (pl.probs row).1 ∧ 0 ≤ (pl.probs row).2 ∧
    (pl.probs row).1 + (pl.probs row).2 = 1 ∧
    pl.predictLabel row = (if (pl.probs row).1 < (pl.probs row).2 then 1 else 0)

/-- Truncation toward zero, Python `int(<float>)`. -/
def ratTrunc (q : ℚ) : Int :=
  q.num.tdiv (q.den : Int)

/-- A nonempty all-decimal-digit character list as a number. -/
def digitsToNat (cs : List Char) : Option Nat :=
  if cs.isEmpty then none
  else if cs.all Char.isDigit then
    some (cs.foldl (fun n c => 10 * n + (c.toNat - 48)) 0)
  else none

/-- Strip whitespace from both ends. -/
def stripWs (cs : List Char) : List Char :=
  ((cs.dropWhile Char.isWhitespace).reverse.dropWhile Char.isWhitespace).reverse

/-- Parse Python `int(<str>)`: optional surrounding whitespace, an optional
sign, then decimal digits.  (Python additionally accepts underscore digit
separators; no theorem quantifies over such strings.) -/
def parsePyInt (s : String) : Option Int :=
  match stripWs s.toList with
  | '-' :: ds => (digitsToNat ds).map (fun n => -(n : Int))
  | '+' :: ds => (digitsToNat ds).map (fun n => (n : Int))
  | ds => (digitsToNat ds).map (fun n => (n : Int))

/-- Python `int(value)`, as peewee's `IntegerField` applies it to every stored
value and every comparison operand bound against the column: ints pass
through, bools become 0/1, floats truncate toward zero, numeric strings
parse, non-numeric strings raise `ValueError`, lists/dicts raise
`TypeError` — both uncaught by the handlers. -/
def intCoerce : JVal → Except Fault Int
  | .jint n => .ok n
  | .jbool b => .ok (if b then 1 else 0)
  | .jrat q => .ok (ratTrunc q)
  | .jstr s =>
    match parsePyInt s with
    | some n => .ok n
    | none => .error .valueError
  | _ => .error .typeError

/-- peewee `IntegerField.db_value`: `None` passes through (bound as SQL
`NULL`), every other value goes through `int(value)`. -/
def dbValueInt : JVal → Except Fault (Option Int)
  | .jnull => .ok none
  | v => (intCoerce v).map some

/-- A row of the `Prediction` table.  `observation` holds `request.data`, the
serialized original request body, modelled as the parsed JSON value (JSON
serialization is injective).  `observation_id` and `true_class` are
`IntegerField` columns, so they hold integers (`true_class` nullable).
Peewee's implicit auto-increment primary key is omitted: it carries no
information the claims mention. -/
structure Prediction where
  observation_id : Int
  observation : JVal
  proba : ℚ
  true_class : Option Int

/-- The prediction store: the rows of the `Prediction` table in insertion order. -/
abbrev Store := List Prediction

/-- The `SELECT` by integer key underlying `Prediction.get`. -/
def storeGet (store : Store) (n : Int) : Option Prediction :=
  store.find? (fun r => r.observation_id == n)

/-- `Prediction.get(Prediction.observation_id == idv)`: the comparison operand
is bound through the column's `int()` coercion (so `"5"` or `true` match a
stored integer id, and a list id faults), and a `None` id compares as SQL
`NULL`, matching no row of the non-nullable column. -/
def storeLookup (store : Store) (idv : JVal) : Except Fault (Option Prediction) :=
  match dbValueInt idv with
  | .error f => .error f
  | .ok none => .ok none
  | .ok (some n) => .ok (storeGet store n)

/-- `p.save()` on a freshly constructed row: `INSERT`, which the unique
constraint on `observation_id` rejects (`IntegrityError`, modelled as `none`)
when a row with that id already exists. -/
def storeInsert (store : Store) (r : Prediction) : Option Store :=
  if store.any (fun x => x.observation_id == r.observation_id) then
    none
  else
    some (store ++ [r])

/-- `p.save()` on a fetched row: replace the row with that `observation_id`
(unique by the insert-time constraint). -/
def storeUpdate (store : Store) (n : Int) (r2 : Prediction) : Store :=
  store.map (fun r => if r.observation_id == n then r2 else r)

/-- Body of a `/predict` response: either `\x7b"error": msg\x7d`, or the success body
`\x7b"observation_id", "prediction", "probability"\x7d` with an optional added
`"error"` entry for a duplicate id. -/
inductive PredictResponse where
  | err (msg : String)
  | success (observation_id : JVal) (prediction : Bool) (probability : ℚ)
      (dup : Option String)

/-- `model_to_dict` of the in-memory row at response time.  peewee does not
write the database-coerced value back to the fetched instance, so
`true_class` here is the raw JSON value the handler assigned, while the
stored row (`Prediction.true_class`) holds the coerced integer. -/
structure ResponseRecord where
  observation_id : Int
  observation : JVal
  proba : ℚ
  true_class : JVal

/-- Body of an `/update` response: either `\x7b"error": msg\x7d` or the full record
as a flat mapping (`model_to_dict`). -/
inductive UpdateResponse where
  | err (msg : String)
  | record (r : ResponseRecord)

/-- Python `sub in s` on strings (the patterns used here are the nonempty
literals `observation_id` and `data`). -/
def strContains (s pat : String) : Bool :=
  (s.splitOn pat).length != 1

/-- The `/predict` handler.  Mirrors the source line by line: envelope check,
subscript the id and data, column-set check (faulting on a non-dict `data`),
categorical/hour/age checks, inference, response construction, then the
insert with the duplicate-id recovery.  The row's `observation_id` is bound
through the column's `int()` coercion; a `None` id is bound as `NULL` and
violates the column's NOT NULL constraint, which raises the same caught
`IntegrityError` as a duplicate.  Python dispatches the envelope's `in` per
body type: key membership on dicts, element/substring membership on
lists/strings (whose subscripts by string then fault), `TypeError` on
numbers, booleans and null. -/
def predict (pl : Pipeline) (body : JVal) (store : Store) :
    Except Fault (PredictResponse × Store) :=
  match body with
  | .jobj obs_dict =>
    let cr := check_request obs_dict
    if !(cr.1) then .ok (.err cr.2, store)
    else
      match jlookup obs_dict "observation_id", jlookup obs_dict "data" with
      | some idv, some observation =>
        match check_valid_column observation with
        | .error f => .error f
        | .ok cc =>
          if !(cc.1) then .ok (.err cc.2, store)
          else
            match observation with
            | .jobj od =>
              let catc := check_categorical_values od
              if !(catc.1) then .ok (.err catc.2, store)
              else
                let hc := check_hour od
                if !(hc.1) then .ok (.err hc.2, store)
                else
                  let ac := check_age od
                  if !(ac.1) then .ok (.err ac.2, store)
                  else
                    let proba := (pl.probs od).1
                    let prediction := pl.predictLabel od
                    match dbValueInt idv with
                    | .error f => .error f
                    | .ok none =>
                      .ok (.success idv (prediction != 0) proba
                        (some ("ERROR: Observation ID: \x27" ++ pyFormat idv ++
                               "\x27 already exists")), store)
                    | .ok (some n) =>
                      let p : Prediction := ⟨n, .jobj obs_dict, proba, none⟩
                      match storeInsert store p with
                      | some store2 =>
                        .ok (.success idv (prediction != 0) proba none, store2)
                      | none =>
                        .ok (.success idv (prediction != 0) proba
                          (some ("ERROR: Observation ID: \x27" ++ pyFormat idv ++
                                 "\x27 already exists")), store)
            | _ => .error .attributeError
      | _, _ => .error (.keyError "observation_id")
  | .jarr xs =>
    if !(xs.any (fun v => pyEqStr v "observation_id")) then
      .ok (.err ("Field `observation_id` missing from request: " ++
                 pyFormat (.jarr xs)), store)
    else if !(xs.any (fun v => pyEqStr v "data")) then
      .ok (.err ("Field `data` missing from request: " ++ pyFormat (.jarr xs)), store)
    else .error .typeError
  | .jstr s =>
    if !(strContains s "observation_id") then
      .ok (.err ("Field `observation_id` missing from request: " ++
                 pyFormat (.jstr s)), store)
    else if !(strContains s "data") then
      .ok (.err ("Field `data` missing from request: " ++ pyFormat (.jstr s)), store)
    else .error .typeError
  | _ => .error .typeError

/-- The `/update` handler.  Reads the identifier from key `_id` (a `KeyError`
fault when absent), looks the row up through the column's coercion, and only
then reads `true_class`; on `DoesNotExist` it answers the not-found error
without touching the store.  `p.save()` stores the `int()`-coerced label
(faulting uncaught on uncoercible values, leaving the store unchanged),
while `model_to_dict(p)` serializes the in-memory row, whose `true_class` is
still the raw assigned value. -/
def update (body : JVal) (store : Store) : Except Fault (UpdateResponse × Store) :=
  match body with
  | .jobj obs =>
    match jlookup obs "_id" with
    | none => .error (.keyError "_id")
    | some idv =>
      match storeLookup store idv with
      | .error f => .error f
      | .ok none =>
        .ok (.err ("Observation ID: \x22" ++ pyFormat idv ++ "\x22 does not exist"),
             store)
      | .ok (some p) =>
        match jlookup obs "true_class" with
        | none => .error (.keyError "true_class")
        | some tc =>
          match dbValueInt tc with
          | .error f => .error f
          | .ok r =>
            let p2 : Prediction := { p with true_class := r }
            .ok (.record ⟨p.observation_id, p.observation, p.proba, tc⟩,
                 storeUpdate store p.observation_id p2)
  | _ => .error .typeError

/-- A concrete well-formed pipeline used by witnesses. -/
def plA : Pipeline := ⟨fun _ => (1/4, 3/4), fun _ => 1⟩

/-- A second concrete pipeline, distinct from `plA`, used to exhibit
pipeline-independence of rejected requests. -/
def plB : Pipeline := ⟨fun _ => (3/10, 7/10), fun _ => 1⟩

/-- A valid observation payload. -/
def obsOk1 : JObj :=
  [("age", .jint 30), ("sex", .jstr "Male"), ("race", .jstr "White"),
   ("workclass", .jstr "Private"), ("education", .jstr "Bachelors"),
   ("marital-status", .jstr "Never-married"), ("capital-gain", .jint 0),
   ("capital-loss", .jint 0), ("hours-per-week", .jint 40)]

/-- A second valid observation payload, distinct from `obsOk1`. -/
def obsOk2 : JObj :=
  [("age", .jint 50), ("sex", .jstr "Female"), ("race", .jstr "Black"),
   ("workclass", .jstr "State-gov"), ("education", .jstr "Masters"),
   ("marital-status", .jstr "Divorced"), ("capital-gain", .jint 100),
   ("capital-loss", .jint 0), ("hours-per-week", .jint 20)]

/-- A valid `/predict` body carrying id 1 and `obsOk1`. -/
def reqOk1 : JObj := [("observation_id", .jint 1), ("data", .jobj obsOk1)]

/-- A valid `/predict` body carrying id 1 and `obsOk2`. -/
def reqOk2 : JObj := [("observation_id", .jint 1), ("data", .jobj obsOk2)]

/-- A store in which no row carries `id` has no row found for `id`. -/
theorem store_find_none (store : Store) (id : Int)
    (h : store.any (fun r => r.observation_id == id) = false) :
    store.find? (fun r => r.observation_id == id) = none := by
  rw [List.find?_eq_none]
  intro x hx
  simp only [List.any_eq_false] at h
  simpa using h x hx

/-- After appending a row with a previously-absent id, looking that id up
finds exactly the appended row. -/
theorem storeGet_append (store : Store) (r : Prediction) (id : Int)
    (hfresh : store.any (fun x => x.observation_id == id) = false)
    (hr : r.observation_id = id) :
    storeGet (store ++ [r]) id = some r := by
  simp only [storeGet, List.find?_append, store_find_none store id hfresh]
  simp [List.find?, hr]

/-- A row found under `id` carries `id`. -/
theorem storeGet_id (store : Store) (id : Int) (p : Prediction)
    (h : storeGet store id = some p) : p.observation_id = id := by
  have h2 : store.find? (fun r => r.observation_id == id) = some p := by
    simpa [storeGet] using h
  simpa using List.find?_some h2

/-- Replacing the row under `id` makes lookup of `id` return the replacement. -/
theorem storeGet_storeUpdate (store : Store) (id : Int) (p p2 : Prediction)
    (hg : storeGet store id = some p) (h2 : p2.observation_id = id) :
    storeGet (storeUpdate store id p2) id = some p2 := by
  induction store with
  | nil => simp [storeGet] at hg
  | cons r rest ih =>
    by_cases hr : r.observation_id = id
    · simp [storeGet, storeUpdate, List.find?, hr, h2]
    · have hrb : (r.observation_id == id) = false := by simpa using hr
      have hg' : storeGet rest id = some p := by
        simp only [storeGet] at hg ⊢
        rwa [List.find?_cons_of_neg _ (by simp [hrb])] at hg
      have hrec := ih hg'
      simp only [storeGet, storeUpdate, List.map_cons, hrb, if_false,
        Bool.false_eq_true, ite_false] at hrec ⊢
      rwa [List.find?_cons_of_neg _ (by simp [hrb])]

/-- Rows not carrying `id` are untouched by replacing the row under `id`. -/
theorem storeUpdate_other (store : Store) (id : Int) (p2 : Prediction) (r : Prediction)
    (hr : r ∈ store) (hne : r.observation_id ≠ id) :
    r ∈ storeUpdate store id p2 := by
  have hrb : (r.observation_id == id) = false := by simpa using hne
  exact List.mem_map.mpr ⟨r, hr, by simp [hrb]⟩

/-- An envelope carrying both fields passes `check_request`. -/
theorem check_request_pass (o : JObj) (v d : JVal)
    (hi : jlookup o "observation_id" = some v) (hd : jlookup o "data" = some d) :
    check_request o = (true, "") := by
  simp [check_request, jmem, hi, hd]

/-- `/update` on a body carrying `_id` and a coercible `true_class`, when the
id is found: the stored row is rewritten with the coerced label and the
in-memory row (raw label) is returned. -/
theorem update_found_eq (o : JObj) (id : Int) (tc : JVal) (r : Option Int)
    (store : Store) (p : Prediction)
    (hi : jlookup o "_id" = some (.jint id))
    (hg : storeGet store id = some p)
    (ht : jlookup o "true_class" = some tc)
    (hc : dbValueInt tc = .ok r) :
    update (.jobj o) store =
      .ok (.record ⟨p.observation_id, p.observation, p.proba, tc⟩,
           storeUpdate store p.observation_id { p with true_class := r }) := by
  have hsl : storeLookup store (.jint id) = .ok (storeGet store id) := rfl
  simp [update, hsl, hi, hg, ht, hc]

/-- Evaluation of `/predict` on a body that passes every check, up to the
insert-or-duplicate outcome. -/
theorem predict_valid_eq (pl : Pipeline) (o od : JObj) (id : Int) (store : Store)
    (hi : jlookup o "observation_id" = some (.jint id))
    (hd : jlookup o "data" = some (.jobj od))
    (hc : check_valid_column (.jobj od) = .ok (true, ""))
    (hcat : (check_categorical_values od).1 = true)
    (hh : (check_hour od).1 = true)
    (ha : (check_age od).1 = true) :
    predict pl (.jobj o) store =
      (match storeInsert store ⟨id, .jobj o, (pl.probs od).1, none⟩ with
       | some store2 =>
         .ok (.success (.jint id) (pl.predictLabel od != 0) (pl.probs od).1 none, store2)
       | none =>
         .ok (.success (.jint id) (pl.predictLabel od != 0) (pl.probs od).1
           (some ("ERROR: Observation ID: \x27" ++ toString id ++ "\x27 already exists")),
           store)) := by
  simp [predict, check_request_pass o _ _ hi hd, hi, hd, hc, hcat, hh, ha,
    dbValueInt, intCoerce, Except.map, pyFormat, jrepr]

/-- An envelope passing `check_request` carries both fields. -/
theorem check_request_true (o : JObj) (h : (check_request o).1 = true) :
    jmem o "observation_id" = true ∧ jmem o "data" = true := by
  by_cases h1 : jmem o "observation_id" <;> by_cases h2 : jmem o "data" <;>
    simp [check_request, h1, h2] at h ⊢

/-- The request fails one of the five validation checks with an error string
(as opposed to passing them all, or faulting on a non-dict `data`). -/
def failsValidation (body : JVal) : Bool :=
  match body with
  | .jobj o =>
    if !((check_request o).1) then true
    else
      match jlookup o "data" with
      | some (.jobj od) =>
        match check_valid_column (.jobj od) with
        | .ok cc =>
          !(cc.1) || !((check_categorical_values od).1) ||
            !((check_hour od).1) || !((check_age od).1)
        | .error _ => false
      | _ => false
  | _ => false

/-- Every categorical field present in `o` holds an allowed value. -/
def presentCatsValid (o : JObj) (L : List (String × List String)) : Bool :=
  L.all (fun kv =>
    match jlookup o kv.1 with
    | some v => kv.2.any (fun s => pyEqStr v s)
    | none => true)

/-- If some field of the category list is absent and all present ones are valid,
the categorical loop stops at the first absent field with the unformatted
template error. -/
theorem checkCatLoop_missing (o : JObj) (L : List (String × List String))
    (hmiss : L.any (fun kv => !(jmem o kv.1)) = true)
    (hvalid : presentCatsValid o L = true) :
    checkCatLoop o L = (false, "Categorical field \x7b\x7d missing") := by
  induction L with
  | nil => simp at hmiss
  | cons kv rest ih =>
    obtain ⟨key, valid⟩ := kv
    cases hk : jlookup o key with
    | none => simp [checkCatLoop, hk]
    | some v =>
      simp only [presentCatsValid, List.all_cons, Bool.and_eq_true] at hvalid
      obtain ⟨hv1, hv2⟩ := hvalid
      simp only [hk] at hv1
      simp only [List.any_cons, Bool.or_eq_true, jmem, hk, Option.isSome_some,
        Bool.not_true] at hmiss
      have hmiss' : rest.any (fun kv => !(jmem o kv.1)) = true := by
        rcases hmiss with h | h
        · exact absurd h (by simp)
        · exact h
      simp only [checkCatLoop, hk, hv1, Bool.not_true, Bool.false_eq_true, if_false,
        ite_false]
      exact ih hmiss' hv2

/-- Whether a JSON value is a mapping. -/
def isMapping : JVal → Bool
  | .jobj _ => true
  | _ => false

/-- A stored record as left by a successful `/predict` of `reqOk1` under `plA`. -/
def storedRec1 : Prediction := ⟨1, .jobj reqOk1, 1/4, none⟩

/-- C1: two valid `/predict` requests with the same `observation_id` (and possibly
distinct payloads): the first inserts its record; the second still returns a
freshly computed prediction and probability but with an added duplicate-id
error field, and the store — in particular the first request's record — is
unchanged (insert-if-absent, first write wins). -/
theorem c1_duplicate_predict_first_write_wins
    (pl : Pipeline) (o1 o2 od1 od2 : JObj) (id : Int) (store : Store)
    (h1i : jlookup o1 "observation_id" = some (.jint id))
    (h1d : jlookup o1 "data" = some (.jobj od1))
    (h1c : check_valid_column (.jobj od1) = .ok (true, ""))
    (h1cat : (check_categorical_values od1).1 = true)
    (h1h : (check_hour od1).1 = true)
    (h1a : (check_age od1).1 = true)
    (h2i : jlookup o2 "observation_id" = some (.jint id))
    (h2d : jlookup o2 "data" = some (.jobj od2))
    (h2c : check_valid_column (.jobj od2) = .ok (true, ""))
    (h2cat : (check_categorical_values od2).1 = true)
    (h2h : (check_hour od2).1 = true)
    (h2a : (check_age od2).1 = true)
    (hfresh : store.any (fun r => r.observation_id == id) = false) :
    predict pl (.jobj o1) store =
      .ok (.success (.jint id) (pl.predictLabel od1 != 0) (pl.probs od1).1 none,
           store ++ [⟨id, .jobj o1, (pl.probs od1).1, none⟩]) ∧
    predict pl (.jobj o2) (store ++ [⟨id, .jobj o1, (pl.probs od1).1, none⟩]) =
      .ok (.success (.jint id) (pl.predictLabel od2 != 0) (pl.probs od2).1
             (some ("ERROR: Observation ID: \x27" ++ toString id ++ "\x27 already exists")),
           store ++ [⟨id, .jobj o1, (pl.probs od1).1, none⟩]) ∧
    storeGet (store ++ [⟨id, .jobj o1, (pl.probs od1).1, none⟩]) id =
      some ⟨id, .jobj o1, (pl.probs od1).1, none⟩ := by
  refine ⟨?_, ?_, ?_⟩
  · rw [predict_valid_eq pl o1 od1 id store h1i h1d h1c h1cat h1h h1a]
    simp [storeInsert, hfresh]
  · rw [predict_valid_eq pl o2 od2 id _ h2i h2d h2c h2cat h2h h2a]
    simp [storeInsert, List.any_append, hfresh]
  · exact storeGet_append store _ id hfresh rfl

/-- C1 witness: the concrete pair `reqOk1`, `reqOk2` (same id 1, distinct valid
payloads) against the empty store. -/
theorem c1_witness :
    predict plA (.jobj reqOk1) [] =
      .ok (.success (.jint 1) (plA.predictLabel obsOk1 != 0) (plA.probs obsOk1).1 none,
           [] ++ [⟨1, .jobj reqOk1, (plA.probs obsOk1).1, none⟩]) ∧
    predict plA (.jobj reqOk2) ([] ++ [⟨1, .jobj reqOk1, (plA.probs obsOk1).1, none⟩]) =
      .ok (.success (.jint 1) (plA.predictLabel obsOk2 != 0) (plA.probs obsOk2).1
             (some ("ERROR: Observation ID: \x27" ++ toString (1 : Int) ++
                    "\x27 already exists")),
           [] ++ [⟨1, .jobj reqOk1, (plA.probs obsOk1).1, none⟩]) ∧
    storeGet ([] ++ [⟨1, .jobj reqOk1, (plA.probs obsOk1).1, none⟩]) 1 =
      some ⟨1, .jobj reqOk1, (plA.probs obsOk1).1, none⟩ :=
  c1_duplicate_predict_first_write_wins plA reqOk1 reqOk2 obsOk1 obsOk2 1 []
    rfl rfl rfl rfl rfl rfl rfl rfl rfl rfl rfl rfl rfl

/-- C2 counterexample: the id `1` is in the store, yet an `/update` body keyed
`observation_id` (as the claim prescribes) makes the handler fault with a
`KeyError` on `_id` instead of returning the stored record. -/
theorem c2_counterexample :
    storeGet [storedRec1] 1 = some storedRec1 ∧
    update (.jobj [("observation_id", .jint 1), ("true_class", .jint 0)]) [storedRec1] =
      .error (.keyError "_id") :=
  ⟨rfl, rfl⟩

/-- C2 amended: the `/update` handler reads the identifier from the body key
`_id` (not `observation_id`); for a body `\x7b"_id": <id>, "true_class": <int>\x7d`
with the id present it locates the record by that key, sets `true_class` to
that integer, and returns the full stored record. -/
theorem c2_update_locates_by_underscore_id (o : JObj) (id tcv : Int)
    (store : Store) (p : Prediction)
    (hi : jlookup o "_id" = some (.jint id))
    (hg : storeGet store id = some p)
    (ht : jlookup o "true_class" = some (.jint tcv)) :
    update (.jobj o) store =
      .ok (.record ⟨p.observation_id, p.observation, p.proba, .jint tcv⟩,
           storeUpdate store p.observation_id { p with true_class := some tcv }) :=
  update_found_eq o id (.jint tcv) (some tcv) store p hi hg ht rfl

/-- C2 witness: a `_id`-keyed update against a store holding id 1. -/
theorem c2_witness :
    update (.jobj [("_id", .jint 1), ("true_class", .jint 0)]) [storedRec1] =
      .ok (.record ⟨storedRec1.observation_id, storedRec1.observation,
                    storedRec1.proba, .jint 0⟩,
           storeUpdate [storedRec1] storedRec1.observation_id
             { storedRec1 with true_class := some 0 }) :=
  c2_update_locates_by_underscore_id [("_id", .jint 1), ("true_class", .jint 0)] 1 0
    [storedRec1] storedRec1 rfl rfl rfl

/-- C3 counterexample: `hours-per-week = 0` satisfies `0 ≤ v ≤ 168`, yet the
check fails — the falsy test reports the field missing. -/
theorem c3_counterexample :
    check_hour [("hours-per-week", JVal.jint 0)] = (false, "Field `hour` missing") :=
  rfl

/-- C3 amended: for an integer `v` in `hours-per-week`, the check passes iff
`1 ≤ v ≤ 168`; `v = 0` fails with the missing-field message (the falsy-zero
defect), while a genuinely out-of-range `v` fails with the message naming the
field and the bounds 0 and 168. -/
theorem c3_hours_check (o : JObj) (v : Int)
    (h : jlookup o "hours-per-week" = some (.jint v)) :
    ((check_hour o).1 = true ↔ 1 ≤ v ∧ v ≤ 168) ∧
    (v = 0 → check_hour o = (false, "Field `hour` missing")) ∧
    ((v < 0 ∨ 168 < v) →
      check_hour o =
        (false, "Field `hours-per-week` " ++ toString v ++ " is not between 0 and 168")) := by
  have key : check_hour o =
      (if v = 0 then (false, "Field `hour` missing")
       else if v < 0 || v > 168 then
         (false, "Field `hours-per-week` " ++ toString v ++ " is not between 0 and 168")
       else (true, "")) := by
    by_cases h0 : v = 0
    · simp [check_hour, h, pyTruthy, h0]
    · simp [check_hour, h, pyTruthy, isPyInt, asPyInt, pyStr, pyFormat, jrepr, h0]
  rw [key]
  refine ⟨?_, ?_, ?_⟩
  · split_ifs with h0 hr
    · simp; omega
    · simp only [Bool.or_eq_true, decide_eq_true_eq] at hr
      simp; omega
    · simp only [Bool.or_eq_true, decide_eq_true_eq, not_or, not_lt] at hr
      simp; omega
  · intro h0; simp [h0]
  · intro hr
    have h0 : ¬ v = 0 := by omega
    have hr' : (v < 0 || v > 168) = true := by
      rcases hr with h | h <;> simp [h]
    simp [h0, hr']

/-- C3 witness: the in-range boundary value 168 passes. -/
theorem c3_witness :
    (((check_hour [("hours-per-week", JVal.jint 168)]).1 = true ↔
        1 ≤ (168 : Int) ∧ (168 : Int) ≤ 168)) ∧
    ((168 : Int) = 0 →
      check_hour [("hours-per-week", JVal.jint 168)] = (false, "Field `hour` missing")) ∧
    (((168 : Int) < 0 ∨ 168 < (168 : Int)) →
      check_hour [("hours-per-week", JVal.jint 168)] =
        (false, "Field `hours-per-week` " ++ toString (168 : Int) ++
          " is not between 0 and 168")) :=
  c3_hours_check [("hours-per-week", JVal.jint 168)] 168 rfl

/-- C4 counterexample: a well-formed pipeline whose probability row is
`(3/10, 7/10)`.  The response reports probability `3/10` — the class-0 column —
while the positive-class probability of the collaborator contract is `7/10`. -/
theorem c4_counterexample :
    Pipeline.wellFormed plB ∧
    predict plB (.jobj reqOk1) [] =
      .ok (.success (.jint 1) true (3/10) none, [⟨1, .jobj reqOk1, 3/10, none⟩]) ∧
    spec_predict_probability plB obsOk1 = 7/10 ∧
    (3/10 : ℚ) ≠ 7/10 := by
  refine ⟨fun row => ⟨by norm_num [plB], by norm_num [plB], by norm_num [plB],
    by norm_num [plB]⟩, rfl, rfl, by norm_num⟩

/-- C4 amended: the success response's probability is `predict_proba[0, 0]`,
the predicted probability of the class at index 0; for a well-formed binary
pipeline this is `1 -` the positive-class probability, not the positive-class
probability itself. -/
theorem c4_probability_is_class_zero (pl : Pipeline) (o od : JObj) (id : Int) (store : Store)
    (hi : jlookup o "observation_id" = some (.jint id))
    (hd : jlookup o "data" = some (.jobj od))
    (hc : check_valid_column (.jobj od) = .ok (true, ""))
    (hcat : (check_categorical_values od).1 = true)
    (hh : (check_hour od).1 = true)
    (ha : (check_age od).1 = true)
    (hfresh : store.any (fun r => r.observation_id == id) = false) :
    predict pl (.jobj o) store =
      .ok (.success (.jint id) (pl.predictLabel od != 0) (pl.probs od).1 none,
           store ++ [⟨id, .jobj o, (pl.probs od).1, none⟩]) ∧
    (Pipeline.wellFormed pl →
      (pl.probs od).1 = 1 - spec_predict_probability pl od) := by
  constructor
  · rw [predict_valid_eq pl o od id store hi hd hc hcat hh ha]
    simp [storeInsert, hfresh]
  · intro hwf
    have hsum := (hwf od).2.2.1
    unfold spec_predict_probability
    linarith

/-- C4 witness: the amended statement at the concrete pipeline `plB`. -/
theorem c4_witness :
    (predict plB (.jobj reqOk1) [] =
      .ok (.success (.jint 1) (plB.predictLabel obsOk1 != 0) (plB.probs obsOk1).1 none,
           [] ++ [⟨1, .jobj reqOk1, (plB.probs obsOk1).1, none⟩])) ∧
    (Pipeline.wellFormed plB →
      (plB.probs obsOk1).1 = 1 - spec_predict_probability plB obsOk1) :=
  c4_probability_is_class_zero plB reqOk1 obsOk1 1 [] rfl rfl rfl rfl rfl rfl rfl

/-- C6: `/update` with an identifier that is absent from the store — it binds
against the integer column (directly, or through the column's coercion of a
bool/float/numeric string, or as the never-matching `NULL`) and matches no
row — answers the not-found error naming the id and leaves the store exactly
as it was.  (An identifier that cannot be bound, such as a list, makes the
handler fault instead; such requests do not satisfy the absence hypothesis.) -/
theorem c6_update_not_found (o : JObj) (idv : JVal) (store : Store)
    (hi : jlookup o "_id" = some idv)
    (hg : storeLookup store idv = .ok none) :
    update (.jobj o) store =
      .ok (.err ("Observation ID: \x22" ++ pyFormat idv ++ "\x22 does not exist"), store) := by
  simp [update, hi, hg]

/-- C6 witness: the string id `"5"` against a store holding only id 1: the
coerced comparison value 5 matches no row. -/
theorem c6_witness :
    update (.jobj [("_id", .jstr "5"), ("true_class", .jint 1)]) [storedRec1] =
      .ok (.err "Observation ID: \x225\x22 does not exist", [storedRec1]) :=
  c6_update_not_found [("_id", .jstr "5"), ("true_class", .jint 1)] (.jstr "5")
    [storedRec1] rfl rfl

/-- C7: `/update` on an existing identifier with an integer label (the
request shape the API documents): the stored row keeps its `observation_id`,
stored observation and probability from the original `/predict`, gets
exactly the new `true_class`, and the response is the full record — those
unchanged fields together with the new label. -/
theorem c7_update_preserves_other_fields (o : JObj) (id tcv : Int)
    (store : Store) (p : Prediction)
    (hi : jlookup o "_id" = some (.jint id))
    (hg : storeGet store id = some p)
    (ht : jlookup o "true_class" = some (.jint tcv)) :
    ∃ p2 : Prediction,
      update (.jobj o) store =
        .ok (.record ⟨p2.observation_id, p2.observation, p2.proba, .jint tcv⟩,
             storeUpdate store id p2) ∧
      p2.observation_id = p.observation_id ∧
      p2.observation = p.observation ∧
      p2.proba = p.proba ∧
      p2.true_class = some tcv ∧
      storeGet (storeUpdate store id p2) id = some p2 := by
  have hpid : p.observation_id = id := storeGet_id store id p hg
  obtain ⟨pid, pobs, ppr, ptc⟩ := p
  have hpid2 : pid = id := hpid
  subst hpid2
  refine ⟨⟨pid, pobs, ppr, some tcv⟩, ?_, rfl, rfl, rfl, rfl, ?_⟩
  · exact update_found_eq o pid (.jint tcv) (some tcv) store ⟨pid, pobs, ppr, ptc⟩
      hi hg ht rfl
  · exact storeGet_storeUpdate store pid _ _ hg rfl

/-- C7 witness: relabeling the stored record for id 1 with the integer 1. -/
theorem c7_witness :
    ∃ p2 : Prediction,
      update (.jobj [("_id", .jint 1), ("true_class", .jint 1)]) [storedRec1] =
        .ok (.record ⟨p2.observation_id, p2.observation, p2.proba, .jint 1⟩,
             storeUpdate [storedRec1] 1 p2) ∧
      p2.observation_id = storedRec1.observation_id ∧
      p2.observation = storedRec1.observation ∧
      p2.proba = storedRec1.proba ∧
      p2.true_class = some 1 ∧
      storeGet (storeUpdate [storedRec1] 1 p2) 1 = some p2 :=
  c7_update_preserves_other_fields [("_id", .jint 1), ("true_class", .jint 1)] 1 1
    [storedRec1] storedRec1 rfl rfl rfl

/-- C8: whenever a categorical field is absent from the feature mapping (and
the fields the loop reaches first hold allowed values), the categorical check
fails with the literal unformatted template `Categorical field \x7b\x7d missing`,
which names no field.  (An observation that passed the column-set check has
all nine fields, so the check is settled here as the independently callable
pure function the source defines.) -/
theorem c8_missing_categorical_unformatted_template (o : JObj)
    (hmiss : valid_category_map.any (fun kv => !(jmem o kv.1)) = true)
    (hvalid : presentCatsValid o valid_category_map = true) :
    check_categorical_values o = (false, "Categorical field \x7b\x7d missing") :=
  checkCatLoop_missing o valid_category_map hmiss hvalid

/-- C8 witness: a mapping holding only a valid `sex`; `race` is absent. -/
theorem c8_witness :
    check_categorical_values [("sex", JVal.jstr "Male")] =
      (false, "Categorical field \x7b\x7d missing") :=
  c8_missing_categorical_unformatted_template [("sex", JVal.jstr "Male")]
    (by decide) (by decide)

/-- C10: a `/predict` body carrying both envelope keys whose `data` is not a
mapping passes the envelope check and then faults in the column-set check
(`observation.keys()` raises `AttributeError`) instead of producing a
structured validation error. -/
theorem c10_nonmapping_data_faults (pl : Pipeline) (o : JObj) (idv d : JVal)
    (store : Store)
    (hi : jlookup o "observation_id" = some idv)
    (hd : jlookup o "data" = some d)
    (hnm : isMapping d = false) :
    check_request o = (true, "") ∧
    predict pl (.jobj o) store = .error .attributeError := by
  have hcr := check_request_pass o idv d hi hd
  refine ⟨hcr, ?_⟩
  have hcv : check_valid_column d = .error .attributeError := by
    cases d <;> simp_all [isMapping, check_valid_column]
  simp [predict, hcr, hi, hd, hcv]

/-- C10 witness: `data` is the number `5`. -/
theorem c10_witness :
    check_request [("observation_id", .jint 1), ("data", .jint 5)] = (true, "") ∧
    predict plA (.jobj [("observation_id", .jint 1), ("data", .jint 5)]) [] =
      .error .attributeError :=
  c10_nonmapping_data_faults plA [("observation_id", .jint 1), ("data", .jint 5)]
    (.jint 1) (.jint 5) [] rfl rfl rfl

/-- C5: a `/predict` request that fails any validation check is answered with a
body holding only the error string and the store is left unchanged; no
inference runs — the response and store are identical under any two
pipelines. -/
theorem c5_validation_error_no_effects (pl pl2 : Pipeline) (body : JVal) (store : Store)
    (h : failsValidation body = true) :
    ∃ msg, predict pl body store = .ok (.err msg, store) ∧
           predict pl2 body store = .ok (.err msg, store) := by
  cases body
  case jnull => exact absurd h (by simp [failsValidation])
  case jbool b => exact absurd h (by simp [failsValidation])
  case jint n => exact absurd h (by simp [failsValidation])
  case jrat q => exact absurd h (by simp [failsValidation])
  case jstr s => exact absurd h (by simp [failsValidation])
  case jarr xs => exact absurd h (by simp [failsValidation])
  case jobj o =>
  cases hcr : (check_request o).1
  case false =>
    refine ⟨(check_request o).2, ?_, ?_⟩ <;> simp [predict, hcr]
  case true =>
  obtain ⟨hmo, hmd⟩ := check_request_true o hcr
  obtain ⟨idv, hio⟩ := Option.isSome_iff_exists.mp (by simpa [jmem] using hmo)
  obtain ⟨d, hda⟩ := Option.isSome_iff_exists.mp (by simpa [jmem] using hmd)
  simp only [failsValidation] at h
  rw [hcr, hda] at h
  cases d
  case jnull => simp at h
  case jbool b => simp at h
  case jint n => simp at h
  case jrat q => simp at h
  case jstr s => simp at h
  case jarr xs => simp at h
  case jobj od =>
  simp only [Bool.not_true, Bool.false_eq_true, if_false, ite_false] at h
  cases hcv : check_valid_column (.jobj od)
  case error f =>
    rw [hcv] at h
    simp at h
  case ok cc =>
  rw [hcv] at h
  dsimp only at h
  cases hc1 : cc.1
  case false =>
    refine ⟨cc.2, ?_, ?_⟩ <;> simp [predict, hcr, hio, hda, hcv, hc1]
  case true =>
  rw [hc1] at h
  cases hcat : (check_categorical_values od).1
  case false =>
    refine ⟨(check_categorical_values od).2, ?_, ?_⟩ <;>
      simp [predict, hcr, hio, hda, hcv, hc1, hcat]
  case true =>
  rw [hcat] at h
  cases hh : (check_hour od).1
  case false =>
    refine ⟨(check_hour od).2, ?_, ?_⟩ <;>
      simp [predict, hcr, hio, hda, hcv, hc1, hcat, hh]
  case true =>
  rw [hh] at h
  cases ha : (check_age od).1
  case false =>
    refine ⟨(check_age od).2, ?_, ?_⟩ <;>
      simp [predict, hcr, hio, hda, hcv, hc1, hcat, hh, ha]
  case true =>
  rw [ha] at h
  simp at h

/-- C5 witness: a request whose payload misses eight of the nine columns, under
two distinct pipelines. -/
theorem c5_witness :
    ∃ msg,
      predict plA (.jobj [("observation_id", .jint 1), ("data", .jobj [("age", .jint 30)])])
          [] = .ok (.err msg, []) ∧
      predict plB (.jobj [("observation_id", .jint 1), ("data", .jobj [("age", .jint 30)])])
          [] = .ok (.err msg, []) :=
  c5_validation_error_no_effects plA plB
    (.jobj [("observation_id", .jint 1), ("data", .jobj [("age", .jint 30)])]) []
    (by decide)
